import Mathlib

/-!
Verification of the state reconciliation core of a Homebridge garage/gate
plugin.  The accessory class `NXG200` (file `nxg200.ts`) owns a door state
machine, a 60-second reconciliation loop, a 12-second optimistic
confirmation timer, and a per-accessory client adapter; `platform.ts`
discovers devices and picks an accessory category.

The state machine itself lives in `nxg200_state_machine.ts`, which is
referenced but not part of the available sources; its operations are
modelled from the specification (sections 3 and 4.1) and marked as such.
All other definitions are translated directly from the source.
-/

/-- Remote status code for an open door (enum `GarageDoorState.Open = 1`). -/
def GarageDoorState.Open : Nat := 1

/-- Remote status code for a closed door (enum `GarageDoorState.Closed = 2`). -/
def GarageDoorState.Closed : Nat := 2

/-- HomeKit characteristic value `CurrentDoorState.OPEN`. -/
def CurrentDoorState.OPEN : Nat := 0

/-- HomeKit characteristic value `CurrentDoorState.CLOSED`. -/
def CurrentDoorState.CLOSED : Nat := 1

/-- HomeKit characteristic value `CurrentDoorState.OPENING`. -/
def CurrentDoorState.OPENING : Nat := 2

/-- HomeKit characteristic value `CurrentDoorState.CLOSING`. -/
def CurrentDoorState.CLOSING : Nat := 3

/-- HomeKit characteristic value `CurrentDoorState.STOPPED`. -/
def CurrentDoorState.STOPPED : Nat := 4

/-- HomeKit characteristic value `TargetDoorState.OPEN`. -/
def TargetDoorState.OPEN : Nat := 0

/-- HomeKit characteristic value `TargetDoorState.CLOSED`. -/
def TargetDoorState.CLOSED : Nat := 1

/-- HomeKit accessory category `Categories.GARAGE_DOOR_OPENER`. -/
def Categories.GARAGE_DOOR_OPENER : Nat := 4

/-- A device record as produced by the remote API (`Device` interface in
`nxg200.ts`).  `DeviceStatus` is `Option Nat` because at runtime the remote
may report a value outside the enum, or none at all (the source handles this
with a `default` switch case).  `LastOperationTimestamp` is modelled as the
parsed epoch-milliseconds value that `new Date(...).getTime()` yields. -/
structure Device where
  DeviceId : String
  DeviceStatus : Option Nat
  LastOperationTimestamp : Int
deriving DecidableEq

/-- Modelled from the spec: the door state machine of
`nxg200_state_machine.ts` (imported as `FSM` by `nxg200.ts` but not present
among the sources).  Spec section 3 gives its data:
`state` over open/closed/stuck, a `transitioning` flag and the timestamp of
the last confirmed transition.  `state` is a `String` because the including
source compares it with the string literals "open", "closed" and "stuck". -/
structure FSM where
  state : String
  transitioning : Bool
  lastTransition : Int
  deviceId : String
deriving DecidableEq

/-- Modelled from the spec: `isTransitioning()` is a side-effect-free query
of the `transitioning` flag (spec section 4.1). -/
def FSM.isTransitioning (m : FSM) : Bool := m.transitioning

/-- Modelled from the spec: `resetOpen()` forces state `open` and clears
`transitioning` (spec section 4.1); the caller (`resetDeviceState`) supplies
the authoritative timestamp separately. -/
def FSM.resetOpen (m : FSM) : FSM := { m with state := "open", transitioning := false }

/-- Modelled from the spec: `resetClosed()` forces state `closed` and clears
`transitioning` (spec section 4.1). -/
def FSM.resetClosed (m : FSM) : FSM := { m with state := "closed", transitioning := false }

/-- Modelled from the spec: `stuck()` forces state `stuck` and clears
`transitioning` (spec section 4.1). -/
def FSM.stuck (m : FSM) : FSM := { m with state := "stuck", transitioning := false }

/-- Modelled from the spec: `can(direction)` is a pure predicate, true iff
`state` differs from the direction's target state and `transitioning` is
false (spec section 3).  Directions are the strings the source passes
(`can('open')`, `can('close')`). -/
def FSM.can (m : FSM) (direction : String) : Bool :=
  if direction == "open" then m.state != "open" && !m.transitioning
  else if direction == "close" then m.state != "closed" && !m.transitioning
  else false

/-- Modelled from the spec: `open()` sets `transitioning := true` and invokes
the adapter's open; on remote failure the machine transitions to `stuck` and
the error propagates to the caller (spec section 4.1).  `remoteOk` stands for
the remote call resolving; the second component records whether the call
threw. -/
def FSM.openCmd (m : FSM) (remoteOk : Bool) : FSM × Bool :=
  let m1 : FSM := { m with transitioning := true }
  if remoteOk then (m1, false) else (m1.stuck, true)

/-- Modelled from the spec: `close()`, symmetric to `open()`. -/
def FSM.closeCmd (m : FSM) (remoteOk : Bool) : FSM × Bool :=
  let m1 : FSM := { m with transitioning := true }
  if remoteOk then (m1, false) else (m1.stuck, true)

/-- `NXG200.resetDeviceState`: store the device record's operation timestamp
in `lastTransition`, then switch on `DeviceStatus`: `Open` resets open,
`Closed` resets closed, anything else (or missing) goes to `stuck`. -/
def resetDeviceState (m : FSM) (device : Device) : FSM :=
  let m1 : FSM := { m with lastTransition := device.LastOperationTimestamp }
  if device.DeviceStatus == some GarageDoorState.Open then m1.resetOpen
  else if device.DeviceStatus == some GarageDoorState.Closed then m1.resetClosed
  else m1.stuck

/-- Outcome of one firing of the 60-second reconciliation interval:
the machine afterwards, whether the remote API was polled, and whether a
reset was applied. -/
structure ReconcileOutcome where
  fsm : FSM
  polled : Bool
  resetApplied : Bool
deriving DecidableEq

/-- One firing of the `setInterval` callback in the `NXG200` constructor:
if the machine is transitioning, do nothing; otherwise poll the remote
status `d` and reset the machine on any of the three mismatches. -/
def reconcileTick (m : FSM) (d : Device) : ReconcileOutcome :=
  if m.isTransitioning then { fsm := m, polled := false, resetApplied := false }
  else if m.state == "open" && d.DeviceStatus != some GarageDoorState.Open then
    { fsm := resetDeviceState m d, polled := true, resetApplied := true }
  else if m.state == "closed" && d.DeviceStatus != some GarageDoorState.Closed then
    { fsm := resetDeviceState m d, polled := true, resetApplied := true }
  else if m.state == "stuck" &&
      (d.DeviceStatus == some GarageDoorState.Open || d.DeviceStatus == some GarageDoorState.Closed) then
    { fsm := resetDeviceState m d, polled := true, resetApplied := true }
  else
    { fsm := m, polled := true, resetApplied := false }

/-- The disagreement condition of the reconciliation loop: local open with
remote not Open, local closed with remote not Closed, or local stuck with
remote unambiguously Open or Closed. -/
def mismatch (m : FSM) (d : Device) : Bool :=
  (m.state == "open" && d.DeviceStatus != some GarageDoorState.Open) ||
  (m.state == "closed" && d.DeviceStatus != some GarageDoorState.Closed) ||
  (m.state == "stuck" &&
    (d.DeviceStatus == some GarageDoorState.Open || d.DeviceStatus == some GarageDoorState.Closed))

/-- Device metadata the adapter binds at construction
(`{DeviceType, ProductCode}`). -/
structure DeviceMeta where
  DeviceType : Option String
  ProductCode : String
deriving DecidableEq

/-- One invocation of the underlying remote client recorded by the adapter
model: which operation, the device id, and the metadata actually passed. -/
structure ClientCall where
  op : String
  deviceId : String
  meta : DeviceMeta
deriving DecidableEq

/-- The `clientAdapter.open` wrapper from the `NXG200` constructor: call the
bound underlying `open` once, substituting the bound `deviceMeta` when the
caller passes no metadata (`devArg ?? deviceMeta`).  The returned list is
the sequence of underlying client invocations. -/
def adapterOpen (deviceMeta : DeviceMeta) (deviceId : String) (devArg : Option DeviceMeta) :
    List ClientCall :=
  [{ op := "open", deviceId := deviceId, meta := devArg.getD deviceMeta }]

/-- The `clientAdapter.close` wrapper, symmetric to `adapterOpen`. -/
def adapterClose (deviceMeta : DeviceMeta) (deviceId : String) (devArg : Option DeviceMeta) :
    List ClientCall :=
  [{ op := "close", deviceId := deviceId, meta := devArg.getD deviceMeta }]

/-- Observable outcome of one `NXG200.setTargetDoorState` request:
the machine afterwards, the sequence of `CurrentDoorState` values set
synchronously on the service, whether the guarded command was issued and how
many times the remote command was invoked, whether the 12-second
confirmation timer was scheduled and with which stored terminal value,
whether the error was logged, and whether an error escaped to the host. -/
structure SetTargetOutcome where
  fsm : FSM
  serviceEvents : List Nat
  commandIssued : Bool
  commandCalls : Nat
  timerScheduled : Bool
  timerValue : Option Nat
  errorLogged : Bool
  thrown : Bool
deriving DecidableEq

/-- `NXG200.setTargetDoorState(value)`: on `TargetDoorState.OPEN` set
`OPENING`, issue `open()` when `can('open')` holds, then schedule the
12-second timer storing `OPEN`; symmetric for any other value with
`CLOSING`/`close()`/`CLOSED`.  A rejection of the remote call is caught:
the machine is forced to `stuck`, `STOPPED` is set, the error logged, and
nothing is rethrown.  The timer statement sits after (outside) the `can`
guard, so the guard-false path still reaches it; a thrown rejection jumps
to `catch` before it.  `remoteOk` stands for the remote call resolving. -/
def setTargetDoorState (m : FSM) (value : Nat) (remoteOk : Bool) : SetTargetOutcome :=
  if value == TargetDoorState.OPEN then
    if m.can "open" then
      let r := m.openCmd remoteOk
      if r.2 then
        { fsm := r.1.stuck
          serviceEvents := [CurrentDoorState.OPENING, CurrentDoorState.STOPPED]
          commandIssued := true, commandCalls := 1
          timerScheduled := false, timerValue := none
          errorLogged := true, thrown := false }
      else
        { fsm := r.1
          serviceEvents := [CurrentDoorState.OPENING]
          commandIssued := true, commandCalls := 1
          timerScheduled := true, timerValue := some CurrentDoorState.OPEN
          errorLogged := false, thrown := false }
    else
      { fsm := m
        serviceEvents := [CurrentDoorState.OPENING]
        commandIssued := false, commandCalls := 0
        timerScheduled := true, timerValue := some CurrentDoorState.OPEN
        errorLogged := false, thrown := false }
  else
    if m.can "close" then
      let r := m.closeCmd remoteOk
      if r.2 then
        { fsm := r.1.stuck
          serviceEvents := [CurrentDoorState.CLOSING, CurrentDoorState.STOPPED]
          commandIssued := true, commandCalls := 1
          timerScheduled := false, timerValue := none
          errorLogged := true, thrown := false }
      else
        { fsm := r.1
          serviceEvents := [CurrentDoorState.CLOSING]
          commandIssued := true, commandCalls := 1
          timerScheduled := true, timerValue := some CurrentDoorState.CLOSED
          errorLogged := false, thrown := false }
    else
      { fsm := m
        serviceEvents := [CurrentDoorState.CLOSING]
        commandIssued := false, commandCalls := 0
        timerScheduled := true, timerValue := some CurrentDoorState.CLOSED
        errorLogged := false, thrown := false }

/-- The 12-second confirmation timer callback: it sets the characteristic to
the value stored at scheduling time, ignoring the machine's state at fire
time and the latest remote status (it performs no poll). -/
def fireConfirmation (storedValue : Nat) (_fsmAtFire : FSM) (_remoteAtFire : Option Nat) : Nat :=
  storedValue

/-- `NXG200.getCurrentDoorState`: switch on the machine state, layering the
transitioning flag on top of open/closed, with everything else `STOPPED`. -/
def getCurrentDoorState (m : FSM) : Nat :=
  if m.state == "open" then
    if m.isTransitioning then CurrentDoorState.OPENING else CurrentDoorState.OPEN
  else if m.state == "closed" then
    if m.isTransitioning then CurrentDoorState.CLOSING else CurrentDoorState.CLOSED
  else CurrentDoorState.STOPPED

/-- `NXG200.getTargetDoorState`: open maps to `OPEN`, closed to `CLOSED`,
and the default case also returns `CLOSED`. -/
def getTargetDoorState (m : FSM) : Nat :=
  if m.state == "open" then TargetDoorState.OPEN
  else if m.state == "closed" then TargetDoorState.CLOSED
  else TargetDoorState.CLOSED

/-- The `treatGateAsGarage` option read in
`NexxHomebridgePlatform.discoverDevices`: the configured value compared
`!== false`, so a missing option defaults to true. -/
def readTreatGateAsGarage (optVal : Option Bool) : Bool := optVal != some false

/-- The category conditional in `discoverDevices`: gates treated as garages
get `GARAGE_DOOR_OPENER`, and so does everything else (both branches of the
source conditional are the same constant). -/
def chooseCategory (isGate : Bool) (treatGateAsGarage : Bool) : Nat :=
  if isGate && treatGateAsGarage then Categories.GARAGE_DOOR_OPENER
  else Categories.GARAGE_DOOR_OPENER

/-- Every branch of `resetDeviceState` clears the transitioning flag. -/
theorem resetDeviceState_transitioning (m : FSM) (d : Device) :
    (resetDeviceState m d).transitioning = false := by
  unfold resetDeviceState FSM.resetOpen FSM.resetClosed FSM.stuck
  split
  · rfl
  · split <;> rfl

/-- Every branch of `resetDeviceState` stores the device record's operation
timestamp. -/
theorem resetDeviceState_lastTransition (m : FSM) (d : Device) :
    (resetDeviceState m d).lastTransition = d.LastOperationTimestamp := by
  unfold resetDeviceState FSM.resetOpen FSM.resetClosed FSM.stuck
  split
  · rfl
  · split <;> rfl

/-- After a reset from a device record, local state agrees with that record:
no mismatch remains. -/
theorem mismatch_resetDeviceState (m : FSM) (d : Device) :
    mismatch (resetDeviceState m d) d = false := by
  unfold resetDeviceState mismatch FSM.resetOpen FSM.resetClosed FSM.stuck
  split
  · simp_all
  · split <;> simp_all

/-- A non-transitioning reconciliation firing with no mismatch polls but
leaves the machine untouched. -/
theorem reconcileTick_of_mismatch_false (m : FSM) (d : Device)
    (h : m.transitioning = false) (hm : mismatch m d = false) :
    reconcileTick m d = { fsm := m, polled := true, resetApplied := false } := by
  have h1 : m.isTransitioning = false := h
  unfold reconcileTick
  rw [h1]
  simp only [Bool.false_eq_true, if_false]
  split
  · exfalso; unfold mismatch at hm; simp_all
  · split
    · exfalso; unfold mismatch at hm; simp_all
    · split
      · exfalso; unfold mismatch at hm; simp_all
      · rfl

/-- A non-transitioning reconciliation firing with a mismatch polls and
resets the machine from the polled record. -/
theorem reconcileTick_of_mismatch_true (m : FSM) (d : Device)
    (h : m.transitioning = false) (hm : mismatch m d = true) :
    reconcileTick m d = { fsm := resetDeviceState m d, polled := true, resetApplied := true } := by
  have h1 : m.isTransitioning = false := h
  unfold reconcileTick
  rw [h1]
  simp only [Bool.false_eq_true, if_false]
  split
  · rfl
  · split
    · rfl
    · split
      · rfl
      · simp only [mismatch] at hm
        simp_all

/-- C1: when the state machine reports `isTransitioning`, a firing of the
60-second reconciliation interval performs no remote poll and applies no
correction: its outcome is exactly the unchanged machine with
`polled = false` and `resetApplied = false`. -/
theorem C1_reconcile_skips_when_transitioning (m : FSM) (d : Device)
    (h : m.isTransitioning = true) :
    reconcileTick m d = { fsm := m, polled := false, resetApplied := false } := by
  simp [reconcileTick, h]

/-- C1 witness: a concrete transitioning machine is left untouched and
unpolled by a reconciliation firing. -/
theorem C1_witness :
    reconcileTick ⟨"open", true, 0, "d1"⟩ ⟨"d1", some 2, 5⟩
      = { fsm := ⟨"open", true, 0, "d1"⟩, polled := false, resetApplied := false } :=
  C1_reconcile_skips_when_transitioning ⟨"open", true, 0, "d1"⟩ ⟨"d1", some 2, 5⟩ rfl

/-- C2: a non-transitioning firing resets exactly on disagreement, the reset
machine is `resetDeviceState` of the polled record, and `resetDeviceState`
(also run at initial setup) follows the dispatch table — remote Open resets
open, remote Closed resets closed, anything else goes stuck — storing the
record's operation timestamp in every branch. -/
theorem C2_reset_dispatch (m : FSM) (d : Device) (h : m.transitioning = false) :
    (reconcileTick m d).resetApplied = mismatch m d
    ∧ ((reconcileTick m d).resetApplied = true → (reconcileTick m d).fsm = resetDeviceState m d)
    ∧ (resetDeviceState m d).lastTransition = d.LastOperationTimestamp
    ∧ (d.DeviceStatus = some GarageDoorState.Open →
        (resetDeviceState m d).state = "open" ∧ (resetDeviceState m d).transitioning = false)
    ∧ (d.DeviceStatus = some GarageDoorState.Closed →
        (resetDeviceState m d).state = "closed" ∧ (resetDeviceState m d).transitioning = false)
    ∧ (d.DeviceStatus ≠ some GarageDoorState.Open → d.DeviceStatus ≠ some GarageDoorState.Closed →
        (resetDeviceState m d).state = "stuck" ∧ (resetDeviceState m d).transitioning = false) := by
  refine ⟨?_, ?_, resetDeviceState_lastTransition m d, ?_, ?_, ?_⟩
  · cases hm : mismatch m d
    · rw [reconcileTick_of_mismatch_false m d h hm]
    · rw [reconcileTick_of_mismatch_true m d h hm]
  · intro hr
    cases hm : mismatch m d
    · rw [reconcileTick_of_mismatch_false m d h hm] at hr
      simp at hr
    · rw [reconcileTick_of_mismatch_true m d h hm]
  · intro hd
    simp [resetDeviceState, hd, FSM.resetOpen]
  · intro hd
    simp [resetDeviceState, hd, FSM.resetClosed, GarageDoorState.Open, GarageDoorState.Closed]
  · intro hd1 hd2
    simp [resetDeviceState, FSM.stuck, hd1, hd2]

/-- C2 witness: at the spec's scenario — local open, not transitioning,
remote Closed with timestamp 7 — a reset is applied and the reset machine is
closed with `lastTransition = 7`. -/
theorem C2_witness :
    (reconcileTick ⟨"open", false, 0, "d1"⟩ ⟨"d1", some 2, 7⟩).resetApplied
        = mismatch ⟨"open", false, 0, "d1"⟩ ⟨"d1", some 2, 7⟩
    ∧ mismatch ⟨"open", false, 0, "d1"⟩ ⟨"d1", some 2, 7⟩ = true
    ∧ (reconcileTick ⟨"open", false, 0, "d1"⟩ ⟨"d1", some 2, 7⟩).fsm
        = ⟨"closed", false, 7, "d1"⟩ :=
  ⟨(C2_reset_dispatch ⟨"open", false, 0, "d1"⟩ ⟨"d1", some 2, 7⟩ rfl).1, by decide, by decide⟩


/-- C6: reconciliation is idempotent — for a non-transitioning machine,
running the firing twice with an unchanged remote record leaves the same
machine as running it once, and when local state already agrees with the
remote status the firing applies no reset and no state change. -/
theorem C6_reconcile_idempotent (m : FSM) (d : Device) (h : m.transitioning = false) :
    (reconcileTick (reconcileTick m d).fsm d).fsm = (reconcileTick m d).fsm
    ∧ (mismatch m d = false →
        (reconcileTick m d).fsm = m ∧ (reconcileTick m d).resetApplied = false) := by
  cases hm : mismatch m d
  · rw [reconcileTick_of_mismatch_false m d h hm]
    rw [reconcileTick_of_mismatch_false m d h hm]
    exact ⟨rfl, fun _ => ⟨rfl, rfl⟩⟩
  · rw [reconcileTick_of_mismatch_true m d h hm]
    refine ⟨?_, by simp [hm]⟩
    rw [reconcileTick_of_mismatch_false (resetDeviceState m d) d
      (resetDeviceState_transitioning m d) (mismatch_resetDeviceState m d)]

/-- C6 witness: with local open and remote Closed, a second firing after the
correcting one changes nothing more. -/
theorem C6_witness :
    (reconcileTick (reconcileTick ⟨"open", false, 0, "d1"⟩ ⟨"d1", some 2, 7⟩).fsm
        ⟨"d1", some 2, 7⟩).fsm
      = (reconcileTick ⟨"open", false, 0, "d1"⟩ ⟨"d1", some 2, 7⟩).fsm :=
  (C6_reconcile_idempotent ⟨"open", false, 0, "d1"⟩ ⟨"d1", some 2, 7⟩ rfl).1

/-- C3 counterexample: with local state already open and a request for OPEN,
the `can('open')` guard is false so no command is issued, yet the 12-second
confirmation timer is still scheduled (and stores the terminal value OPEN):
the claim that no confirmation timer fires when no command is issued is
false on the code. -/
theorem C3_counterexample :
    (setTargetDoorState ⟨"open", false, 0, "d1"⟩ TargetDoorState.OPEN true).commandIssued = false
    ∧ (setTargetDoorState ⟨"open", false, 0, "d1"⟩ TargetDoorState.OPEN true).timerScheduled = true
    ∧ (setTargetDoorState ⟨"open", false, 0, "d1"⟩ TargetDoorState.OPEN true).timerValue
        = some CurrentDoorState.OPEN := by
  exact ⟨by decide, by decide, by decide⟩

/-- C3 amended: the confirmation timer is scheduled in every
`setTargetDoorState` request except one whose issued command fails — it is
skipped exactly when a command was issued and the remote call rejected; in
particular it still fires when the `can()` guard was false and no command
was issued. -/
theorem C3_timer_unless_failure (m : FSM) (value : Nat) (remoteOk : Bool) :
    (setTargetDoorState m value remoteOk).timerScheduled
      = (!(setTargetDoorState m value remoteOk).commandIssued || remoteOk) := by
  unfold setTargetDoorState FSM.openCmd FSM.closeCmd
  cases remoteOk <;> split <;> split <;> simp

/-- C4: the stored terminal value fired by the confirmation timer is fully
determined by the requested target value — OPEN requests store
`CurrentDoorState.OPEN`, all others store `CurrentDoorState.CLOSED` — and the
timer callback returns the stored value unchanged whatever the machine state
or remote status at fire time (it performs no poll and no state query). -/
theorem C4_timer_unconditional (m : FSM) (value : Nat) (remoteOk : Bool)
    (storedValue : Nat) (fsmAtFire : FSM) (remoteAtFire : Option Nat) :
    (setTargetDoorState m value remoteOk).timerValue
      = (if (setTargetDoorState m value remoteOk).timerScheduled
          then some (if value == TargetDoorState.OPEN
                     then CurrentDoorState.OPEN else CurrentDoorState.CLOSED)
          else none)
    ∧ fireConfirmation storedValue fsmAtFire remoteAtFire = storedValue := by
  constructor
  · unfold setTargetDoorState FSM.openCmd FSM.closeCmd
    cases remoteOk <;> split <;> split <;> simp_all
  · rfl

/-- C5: when the remote call of an issued command rejects, the machine is
forced to stuck (transitioning cleared), the observable state is set to
STOPPED after the initial OPENING/CLOSING, the error is logged, the command
is invoked exactly once (no retry), no confirmation timer runs, and no error
escapes to the host platform. -/
theorem C5_command_failure_absorbed (m : FSM) (value : Nat)
    (h : m.can (if value == TargetDoorState.OPEN then "open" else "close") = true) :
    (setTargetDoorState m value false).fsm.state = "stuck"
    ∧ (setTargetDoorState m value false).fsm.transitioning = false
    ∧ (setTargetDoorState m value false).serviceEvents
        = [if value == TargetDoorState.OPEN
           then CurrentDoorState.OPENING else CurrentDoorState.CLOSING,
           CurrentDoorState.STOPPED]
    ∧ (setTargetDoorState m value false).errorLogged = true
    ∧ (setTargetDoorState m value false).commandCalls = 1
    ∧ (setTargetDoorState m value false).timerScheduled = false
    ∧ (setTargetDoorState m value false).thrown = false := by
  by_cases hv : (value == TargetDoorState.OPEN) = true
  · rw [hv] at h
    simp only [if_true] at h
    simp [setTargetDoorState, hv, h, FSM.openCmd, FSM.stuck]
  · rw [Bool.not_eq_true] at hv
    rw [hv] at h
    simp only [Bool.false_eq_true, if_false] at h
    simp [setTargetDoorState, hv, h, FSM.closeCmd, FSM.stuck]

/-- C5 witness: from a closed, idle machine, an OPEN request whose remote
call rejects ends stuck with STOPPED observable, one command invocation, a
logged error, no timer and nothing thrown. -/
theorem C5_witness :
    (FSM.can ⟨"closed", false, 0, "d1"⟩
        (if (0 == TargetDoorState.OPEN) then "open" else "close")) = true
    ∧ (setTargetDoorState ⟨"closed", false, 0, "d1"⟩ 0 false).fsm.state = "stuck"
    ∧ (setTargetDoorState ⟨"closed", false, 0, "d1"⟩ 0 false).errorLogged = true :=
  ⟨by decide, (C5_command_failure_absorbed ⟨"closed", false, 0, "d1"⟩ 0 (by decide)).1,
    (C5_command_failure_absorbed ⟨"closed", false, 0, "d1"⟩ 0 (by decide)).2.2.2.1⟩

/-- C7: the per-accessory adapter invokes the underlying client exactly once
per call, substituting the device-specific default metadata when the caller
omits it and passing a supplied value through unchanged; being a pure
function of its inputs it keeps no state. -/
theorem C7_adapter_metadata (dm : DeviceMeta) (id : String) (x : DeviceMeta) :
    adapterOpen dm id none = [{ op := "open", deviceId := id, meta := dm }]
    ∧ adapterOpen dm id (some x) = [{ op := "open", deviceId := id, meta := x }]
    ∧ adapterClose dm id none = [{ op := "close", deviceId := id, meta := dm }]
    ∧ adapterClose dm id (some x) = [{ op := "close", deviceId := id, meta := x }]
    ∧ (∀ a : Option DeviceMeta,
        (adapterOpen dm id a).length = 1 ∧ (adapterClose dm id a).length = 1) :=
  ⟨rfl, rfl, rfl, rfl, fun _ => ⟨rfl, rfl⟩⟩

/-- C8: `getCurrentDoorState` maps each machine state deterministically —
open while transitioning to OPENING, open otherwise to OPEN, closed while
transitioning to CLOSING, closed otherwise to CLOSED, and every other state
(stuck included) to STOPPED. -/
theorem C8_current_door_state_mapping (m : FSM) :
    (m.state = "open" → m.transitioning = true →
      getCurrentDoorState m = CurrentDoorState.OPENING)
    ∧ (m.state = "open" → m.transitioning = false →
      getCurrentDoorState m = CurrentDoorState.OPEN)
    ∧ (m.state = "closed" → m.transitioning = true →
      getCurrentDoorState m = CurrentDoorState.CLOSING)
    ∧ (m.state = "closed" → m.transitioning = false →
      getCurrentDoorState m = CurrentDoorState.CLOSED)
    ∧ (m.state ≠ "open" → m.state ≠ "closed" →
      getCurrentDoorState m = CurrentDoorState.STOPPED) := by
  refine ⟨?_, ?_, ?_, ?_, ?_⟩ <;> intro h1 h2 <;>
    simp [getCurrentDoorState, FSM.isTransitioning, h1, h2]

/-- C8 witness: a stuck machine (neither open nor closed) reads STOPPED, and
an open transitioning machine reads OPENING. -/
theorem C8_witness :
    getCurrentDoorState ⟨"stuck", false, 0, "d1"⟩ = CurrentDoorState.STOPPED
    ∧ getCurrentDoorState ⟨"open", true, 0, "d1"⟩ = CurrentDoorState.OPENING :=
  ⟨(C8_current_door_state_mapping ⟨"stuck", false, 0, "d1"⟩).2.2.2.2 (by decide) (by decide),
    (C8_current_door_state_mapping ⟨"open", true, 0, "d1"⟩).1 rfl rfl⟩

/-- C9: `getTargetDoorState` maps open to `TargetDoorState.OPEN`, closed to
`TargetDoorState.CLOSED`, and every other state — in particular stuck — to
`TargetDoorState.CLOSED`. -/
theorem C9_target_door_state_mapping (m : FSM) :
    (m.state = "open" → getTargetDoorState m = TargetDoorState.OPEN)
    ∧ (m.state = "closed" → getTargetDoorState m = TargetDoorState.CLOSED)
    ∧ (m.state ≠ "open" → getTargetDoorState m = TargetDoorState.CLOSED) := by
  refine ⟨fun h1 => ?_, fun h1 => ?_, fun h1 => ?_⟩
  · simp [getTargetDoorState, h1]
  · simp [getTargetDoorState, h1]
  · simp only [getTargetDoorState]
    rw [if_neg (by simp [h1])]
    split <;> rfl

/-- C9 witness: a stuck machine reads target CLOSED and an open machine
reads target OPEN. -/
theorem C9_witness :
    getTargetDoorState ⟨"stuck", false, 0, "d1"⟩ = TargetDoorState.CLOSED
    ∧ getTargetDoorState ⟨"open", false, 0, "d1"⟩ = TargetDoorState.OPEN :=
  ⟨(C9_target_door_state_mapping ⟨"stuck", false, 0, "d1"⟩).2.2 (by decide),
    (C9_target_door_state_mapping ⟨"open", false, 0, "d1"⟩).1 rfl⟩

/-- C10: the accessory category registered in `discoverDevices` does not
depend on the `treatGateAsGarage` option — two configurations differing only
in that option yield the same category, and it is always
`GARAGE_DOOR_OPENER` (both branches of the source conditional coincide). -/
theorem C10_category_independent (isGate : Bool) (o1 o2 : Option Bool) :
    chooseCategory isGate (readTreatGateAsGarage o1)
        = chooseCategory isGate (readTreatGateAsGarage o2)
    ∧ chooseCategory isGate (readTreatGateAsGarage o1) = Categories.GARAGE_DOOR_OPENER :=
  ⟨by simp [chooseCategory], by simp [chooseCategory]⟩
